import Mathlib

/-!
Verification of the git-sync branch reconciliation engine and pull-request
fetcher. The definitions below are a shallow embedding of the Python sources
`git_sync/git.py`, `git_sync/github.py` and `git_sync/__init__.py`:

* The git repository visible to the tool is modelled by `RepoState`:
  local branch tips, configured upstreams, the checked-out branch, the two
  working-tree dirtiness probes, the exit code of `git merge-base
  --is-ancestor`, and the remote-tracking refs.
* Each mutating git invocation becomes a `GitAction`; functions that mutate
  the repository return the actions they performed (in order), the messages
  they printed, and the state obtained by applying those actions.
* `git merge-base --is-ancestor` exit codes and Python exceptions are
  explicit: `is_ancestor` returns `Except PyErr Bool`, mirroring the
  exit-code dispatch in `git.py`.
* Strings are Lean `String`s; helpers that the kernel cannot evaluate are
  re-implemented structurally over the underlying character lists, with the
  same semantics (`strStarts`, `strEnds`, `strDropL`, `stripPre`).
-/

/-- Character-list drop wrapped back into a string: semantics of Python
byte-slicing `s[n:]` for the ASCII ref names manipulated by the tool. -/
def strDropL (s : String) (n : Nat) : String := ⟨s.data.drop n⟩

/-- Does `s` start with `p`? (Python `bytes.startswith`.) -/
def strStarts (s p : String) : Bool := p.data.isPrefixOf s.data

/-- Python `bytes.removeprefix`: drop `p` from the front of `s` when present,
otherwise return `s` unchanged. -/
def stripPre (s p : String) : String :=
  if strStarts s p then strDropL s p.data.length else s

/-- The `refs/heads/` ref namespace, 11 characters, sliced off with `[11:]`
throughout `git.py`. -/
def refsHeadsS : String := "refs/heads/"

/-- The `refs/remotes/` ref namespace. -/
def refsRemotesS : String := "refs/remotes/"

/-- The fallback branch checked out when a deleted branch has no local
upstream (`git.py` line 191). -/
def mainS : String := "main"

/-- Separator in a fetch refspec `src:dst`. -/
def colonS : String := ":"

/-- Path separator in ref names. -/
def slashS : String := "/"

/-- The force marker of a git refspec: only a refspec starting with this
character updates a ref that is not fast-forwarded. -/
def plusS : String := "+"

/-- The empty string (Python falsy). -/
def emptyS : String := ""

/-- The state of the local git repository as seen through the read-only
queries of `git.py`. `mergeBase c1 c2` is the exit code of
`git merge-base --is-ancestor c1 c2`. -/
structure RepoState where
  branches : List (String × String)
  upstreams : List (String × String)
  current : Option String
  staged : Bool
  unstaged : Bool
  mergeBase : String → String → Nat
  remoteRefs : List String

/-- First-match association lookup, the dictionary access of the Python code. -/
def lookupS (l : List (String × String)) (k : String) : Option String :=
  (l.find? (fun p => p.1 == k)).map (fun p => p.2)

/-- Embeds `get_current_branch` (`git.py` lines 54-56): full symbolic ref of
HEAD, or none when detached. -/
def get_current_branch (st : RepoState) : Option String := st.current

/-- Embeds `get_branch_hashes` (`git.py` lines 64-71): map from short branch
name to tip hash. -/
def get_branch_hashes (st : RepoState) : List (String × String) := st.branches

/-- Embeds `get_upstream_branch` (`git.py` lines 145-151): the upstream of the
named branch stripped of `refs/heads/`, or none when there is no upstream or
the upstream is not a local branch. -/
def get_upstream_branch (st : RepoState) (branch_name : String) : Option String :=
  match lookupS st.upstreams branch_name with
  | some u => if strStarts u refsHeadsS then some (strDropL u 11) else none
  | none => none

/-- Embeds `branch_is_an_upstream` (`git.py` lines 154-161): whether the named
branch appears, after `refs/heads/` stripping, among the upstreams of the
local branches. -/
def branch_is_an_upstream (st : RepoState) (branch_name : String) : Bool :=
  st.upstreams.any (fun p => stripPre p.2 refsHeadsS == branch_name)

/-- Embeds `get_remote_branches` (`git.py` lines 102-106): the remote-tracking
refs under `refs/remotes/<remote>/`. -/
def get_remote_branches (st : RepoState) (remote : String) : List String :=
  st.remoteRefs.filter (fun r => strStarts r (refsRemotesS ++ remote ++ slashS))

/-- The branch-mutating git invocations issued by `update_merged_pr_branch`. -/
inductive GitAction where
  | checkout (branch : String)
  | deleteBranch (branch : String)
  | resetHard (hash : String)
  | forceBranch (branch : String) (hash : String)
deriving DecidableEq, Repr

/-- Point update of the branch-tip map. -/
def setBranchHash (l : List (String × String)) (b h : String) :
    List (String × String) :=
  l.map (fun p => if p.1 == b then (b, h) else p)

/-- The effect of one mutating git invocation on the repository state:
`checkout` moves HEAD, `branch -D` removes the branch, `reset --hard` moves
the checked-out branch's tip and discards staged and unstaged changes,
`branch --force` moves a branch tip. -/
def applyAction (st : RepoState) : GitAction → RepoState
  | .checkout b => { st with current := some (refsHeadsS ++ b) }
  | .deleteBranch b =>
      { st with
        branches := st.branches.filter (fun p => !(p.1 == b))
        upstreams := st.upstreams.filter (fun p => !(p.1 == b)) }
  | .resetHard h =>
      match st.current with
      | some cur =>
          if strStarts cur refsHeadsS then
            { st with
              branches := setBranchHash st.branches (strDropL cur 11) h
              staged := false, unstaged := false }
          else { st with staged := false, unstaged := false }
      | none => { st with staged := false, unstaged := false }
  | .forceBranch b h => { st with branches := setBranchHash st.branches b h }

/-- Fold of `applyAction` over a trace of invocations. -/
def applyActions (st : RepoState) (acts : List GitAction) : RepoState :=
  acts.foldl applyAction st

/-- Result of a branch-reconciliation call: resulting repository state, the
mutating git invocations issued (in order), and the lines printed. -/
structure UpdateResult where
  state : RepoState
  actions : List GitAction
  msgs : List String

/-- Skip report for staged changes (`git.py` line 182). -/
def stagedMsg (b : String) : String :=
  "Staged changes on " ++ b ++ ", skipping fast-forward"

/-- Skip report for unstaged changes (`git.py` line 188). -/
def unstagedMsg (b : String) : String :=
  "Unstaged changes on " ++ b ++ ", skipping fast-forward"

/-- Success report (`git.py` line 201). -/
def ffMsg (b h : String) : String := "Fast-forward " ++ b ++ " to " ++ h

/-- The checked-out branch stripped of `refs/heads/`
(`current_branch and current_branch[11:]`, `git.py` lines 175-176). -/
def currentShort (st : RepoState) : Option String :=
  st.current.map (fun c => strDropL c 11)

/-- Embeds `update_merged_pr_branch` (`git.py` lines 164-201): delete or
fast-forward one merged PR branch, skipping the checked-out branch when the
working tree is dirty. -/
def update_merged_pr_branch (st : RepoState) (branch_name merged_hash : String)
    (allow_delete : Bool) : UpdateResult :=
  if currentShort st = some branch_name then
    if st.staged then ⟨st, [], [stagedMsg branch_name]⟩
    else if st.unstaged then ⟨st, [], [unstagedMsg branch_name]⟩
    else if allow_delete && !(branch_is_an_upstream st branch_name) then
      let upstream := (get_upstream_branch st branch_name).getD mainS
      let acts := [GitAction.checkout upstream, GitAction.deleteBranch branch_name]
      ⟨applyActions st acts, acts, [ffMsg branch_name merged_hash]⟩
    else
      let acts := [GitAction.resetHard merged_hash]
      ⟨applyActions st acts, acts, [ffMsg branch_name merged_hash]⟩
  else
    if allow_delete && !(branch_is_an_upstream st branch_name) then
      let acts := [GitAction.deleteBranch branch_name]
      ⟨applyActions st acts, acts, [ffMsg branch_name merged_hash]⟩
    else
      let acts := [GitAction.forceBranch branch_name merged_hash]
      ⟨applyActions st acts, acts, [ffMsg branch_name merged_hash]⟩

/-- Python exceptions crossing the functions under study: `GitError` with its
return code, and `AttributeError` from accessing a missing attribute. -/
inductive PyErr where
  | gitError (returncode : Nat)
  | attributeError
deriving DecidableEq, Repr

/-- Embeds `is_ancestor` (`git.py` lines 109-117): exit code 0 of
`git merge-base --is-ancestor` means true, 1 means false, anything else is a
`GitError` carrying the code. -/
def is_ancestor (st : RepoState) (commit1 commit2 : String) : Except PyErr Bool :=
  let code := st.mergeBase commit1 commit2
  if code = 0 then .ok true
  else if code = 1 then .ok false
  else .error (.gitError code)

/-- Embeds the `PullRequest` dataclass (`github.py` lines 52-61). Its fields
are `branch_name`, `repo_urls`, `hashes` (all commits pushed to the PR,
newest first) and `merged_hash`; there is no `branch_hash` field. -/
structure PullRequest where
  branch_name : String
  repo_urls : List String
  hashes : List String
  merged_hash : Option String
deriving DecidableEq, Repr

/-- The per-PR guard of `update_merged_prs` (`git.py` lines 211-216):
`merged_hash` truthy, branch exists locally, merge commit differs from the
local tip, and the push remote URL belongs to the PR's repository. -/
def prQualifies (push_remote_url : String) (branch_hashes : List (String × String))
    (pr : PullRequest) : Bool :=
  match pr.merged_hash with
  | some mh =>
      !(mh == emptyS) &&
      (match lookupS branch_hashes pr.branch_name with
       | some h => !(h == mh)
       | none => false) &&
      pr.repo_urls.contains push_remote_url
  | none => false

/-- Loop body of `update_merged_prs` (`git.py` lines 208-227) translated
literally: for a qualifying PR the code evaluates `pr.branch_hash`, an
attribute the `PullRequest` dataclass does not define, so Python raises
`AttributeError` before `is_ancestor` is ever invoked; the surrounding
`except GitError` clause does not catch it. -/
def update_merged_prs_go (purl : String) (bh : List (String × String))
    (ad : Bool) : RepoState → List PullRequest → Except PyErr UpdateResult
  | st, [] => .ok ⟨st, [], []⟩
  | st, pr :: rest =>
      if prQualifies purl bh pr then Except.error PyErr.attributeError
      else update_merged_prs_go purl bh ad st rest

/-- Embeds `update_merged_prs` (`git.py` lines 204-227) with the branch-tip
map read once up front, as in the source. -/
def update_merged_prs (st : RepoState) (push_remote_url : String)
    (prs : List PullRequest) (allow_delete : Bool) : Except PyErr UpdateResult :=
  update_merged_prs_go push_remote_url st.branches allow_delete st prs

/-- Whether the reconciliation of `name` deleted it (`git branch -D`). -/
def isDeletedB (r : UpdateResult) (name : String) : Bool :=
  r.actions.any (fun a =>
    match a with
    | GitAction.deleteBranch b => b == name
    | _ => false)

/-- Whether the reconciliation of `name` moved its ref without deleting it:
either `git branch --force name hash` or, for the checked-out branch,
`git reset --hard`. -/
def isForcedB (r : UpdateResult) (name : String) : Bool :=
  r.actions.any (fun a =>
    match a with
    | GitAction.forceBranch b _ => b == name
    | GitAction.resetHard _ => true
    | _ => false)

/-- Embeds the `Branch` dataclass (`git.py` lines 40-44), as produced by
`get_branches_with_remote_upstreams`: full ref name, full upstream ref,
and whether it is the checked-out branch. -/
structure Branch where
  name : String
  upstream : String
  is_current : Bool
deriving DecidableEq, Repr

/-- The git invocations issued by `fetch_and_fast_forward_to_upstream`. -/
inductive FetchCmd where
  | pullAll
  | fetchAll
  | batchedFetch (refspecs : List String) (tolerateFail : Bool)
deriving DecidableEq, Repr

/-- Embeds `fetch_and_fast_forward_to_upstream` (`git.py` lines 120-131):
pull all remotes when a listed branch is checked out, otherwise fetch all
remotes; then one batched `git fetch . upstream:name` over the non-current
branches, its nonzero exit tolerated (`check_return=False`). -/
def fetch_and_fast_forward_to_upstream (branches : List Branch) : List FetchCmd :=
  (if branches.any (fun b => b.is_current) then [FetchCmd.pullAll]
   else [FetchCmd.fetchAll]) ++
  (let fetch_args :=
     (branches.filter (fun b => !b.is_current)).map
       (fun b => b.upstream ++ colonS ++ b.name)
   if fetch_args.isEmpty then [] else [FetchCmd.batchedFetch fetch_args true])

/-- Whether a refspec carries the git force marker `+`, without which
`git fetch` refuses a non-fast-forward ref update. -/
def refspecForced (s : String) : Bool := strStarts s plusS

/-- Recognizer for the batched targeted fetch. -/
def isBatched : FetchCmd → Bool
  | .batchedFetch _ _ => true
  | _ => false

/-- A `git push <remote> <branch>` invocation. -/
structure PushCmd where
  remote : String
  branch : String
deriving DecidableEq, Repr

/-- Embeds `fast_forward_to_downstream` (`git.py` lines 133-142): push each
branch to the push remote under its own short name when the corresponding
remote-tracking ref exists and the branch's upstream is not that ref. -/
def fast_forward_to_downstream (st : RepoState) (push_remote : String)
    (branches : List Branch) : List PushCmd :=
  let remote_branches := get_remote_branches st push_remote
  branches.filterMap (fun b =>
    let short_branch_name := strDropL b.name 11
    let remote := refsRemotesS ++ push_remote ++ slashS ++ short_branch_name
    if remote_branches.contains remote && !(b.upstream == remote) then
      some ⟨push_remote, short_branch_name⟩
    else none)

/-- The downstream stage of `git_sync` (`__init__.py` lines 111-112):
`fast_forward_to_downstream` runs only when a push remote is configured. -/
def downstream_step (st : RepoState) (push_remote : Option String)
    (branches : List Branch) : List PushCmd :=
  match push_remote with
  | none => []
  | some r => fast_forward_to_downstream st r branches

/-- Embeds the `Repository` dataclass (`github.py` lines 15-19). -/
structure Repository where
  domain : String
  owner : String
  name : String
deriving DecidableEq, Repr

/-- Split a character list at every occurrence of `c`; the list of groups is
never empty and the groups contain no `c`. Mirrors how the anchored regexes
`HTTPS_URL` and `GIT_URL` (`github.py` lines 22-23) carve a URL at `/` and
`:`, whose character classes `[^/]*` and `[^:]*` exclude the separator. -/
def splitChar (c : Char) : List Char → List (List Char)
  | [] => [[]]
  | a :: rest =>
      if a = c then [] :: splitChar c rest
      else
        match splitChar c rest with
        | [] => [[a]]
        | g :: gs => (a :: g) :: gs

/-- Inverse of `splitChar`: interleave the separator back. -/
def joinChar (c : Char) : List (List Char) → List Char
  | [] => []
  | [g] => g
  | g :: gs => g ++ c :: joinChar c gs

/-- Remove the last `k` characters. -/
def dropTail (k : Nat) (l : List Char) : List Char := l.take (l.length - k)

/-- The characters of `https://`. -/
def httpsPre : List Char := ['h', 't', 't', 'p', 's', ':', '/', '/']

/-- The characters of `git@`. -/
def gitAtPre : List Char := ['g', 'i', 't', '@']

/-- The characters of `.git`. -/
def gitSuf : List Char := ['.', 'g', 'i', 't']

/-- The `.git` suffix as a string. -/
def gitSufS : String := ".git"

/-- Matcher for `HTTPS_URL = ^https://([^/]*)/([^/]*)/([^/]*)\.git$`
(`github.py` line 22): after `https://` the URL must consist of exactly three
slash-free groups, the last ending in `.git`; the captures are the first two
groups and the last group without its `.git` suffix. -/
def parseHttpsData (l : List Char) : Option Repository :=
  if httpsPre.isPrefixOf l then
    match splitChar ('/') (l.drop 8) with
    | [d, o, nn] =>
        if gitSuf.isSuffixOf nn then some ⟨⟨d⟩, ⟨o⟩, ⟨dropTail 4 nn⟩⟩ else none
    | _ => none
  else none

/-- Matcher for `GIT_URL = ^git@([^:]*):([^/]*)/([^/]*)\.git$`
(`github.py` line 23): after `git@` the host runs to the first colon, and the
remainder must be exactly two slash-free groups, the last ending in `.git`. -/
def parseSshData (l : List Char) : Option Repository :=
  if gitAtPre.isPrefixOf l then
    match splitChar (':') (l.drop 4) with
    | h :: t :: ts =>
        match splitChar ('/') (joinChar (':') (t :: ts)) with
        | [o, nn] =>
            if gitSuf.isSuffixOf nn then some ⟨⟨h⟩, ⟨o⟩, ⟨dropTail 4 nn⟩⟩ else none
        | _ => none
    | _ => none
  else none

/-- Embeds `parse_repo_url` (`github.py` lines 26-40): try the HTTPS shape,
then the SSH shape, else no repository. -/
def parse_repo_url (url : String) : Option Repository :=
  match parseHttpsData url.data with
  | some r => some r
  | none => parseSshData url.data

/-- `dict.setdefault(domain, []).append(repo)`: append to the existing
domain's list, or add a new domain at the end (insertion order). -/
def repos_by_domain_add (acc : List (String × List Repository)) (r : Repository) :
    List (String × List Repository) :=
  if acc.any (fun p => p.1 == r.domain) then
    acc.map (fun p => if p.1 == r.domain then (p.1, p.2 ++ [r]) else p)
  else acc ++ [(r.domain, [r])]

/-- Embeds `repos_by_domain` (`github.py` lines 43-49): parse every URL and
group the parseable ones by domain, silently dropping the rest. -/
def repos_by_domain (urls : List String) : List (String × List Repository) :=
  urls.foldl
    (fun acc url =>
      match parse_repo_url url with
      | some repo => repos_by_domain_add acc repo
      | none => acc)
    []

/-- One node of the initial per-repository query: the PR's opaque id and its
total commit count (`pr_initial_query`, `github.py` lines 64-76). -/
structure PRNode where
  id : String
  totalCount : Nat
deriving DecidableEq, Repr

/-- The `pullRequests.nodes` list returned for one repository. -/
structure RepoPRData where
  nodes : List PRNode
deriving DecidableEq, Repr

/-- The initial GraphQL response: GraphQL-level errors flag and per-repository
data, in query order. -/
structure InitResp where
  errors : Bool
  data : List RepoPRData
deriving DecidableEq, Repr

/-- One PR node of the details response (`pr_details_query`, `github.py`
lines 79-100): head branch name, head repository SSH and HTTPS URLs (absent
when the repository was deleted), commit oids in delivered order, and the
merge commit oid if any. -/
structure PRData where
  headRefName : String
  sshUrl : Option String
  url : Option String
  commits : List String
  mergeCommit : Option String
deriving DecidableEq, Repr

/-- The details GraphQL response. -/
structure DetailsResp where
  errors : Bool
  data : List PRData
deriving DecidableEq, Repr

/-- The GraphQL round trips issued by `fetch_pull_requests_from_domain`: the
combined initial query (owner/name per repository) and the combined details
query (node id and requested commit count per PR). -/
inductive GhRequest where
  | initial (repos : List (String × String))
  | details (queries : List (String × Nat))
deriving DecidableEq, Repr

/-- Embeds the `repo_urls` generator (`github.py` lines 113-119): the SSH URL
when present and truthy, and the HTTPS URL both bare and with `.git`. -/
def repoUrlsOf (pr : PRData) : List String :=
  (match pr.sshUrl with
   | some s => if s == emptyS then [] else [s]
   | none => []) ++
  (match pr.url with
   | some u => if u == emptyS then [] else [u, u ++ gitSufS]
   | none => [])

/-- The `PullRequest` yielded for one details node (`github.py` lines
165-175): commits reversed to newest-first. -/
def toPullRequest (pr : PRData) : PullRequest :=
  { branch_name := pr.headRefName
    repo_urls := repoUrlsOf pr
    hashes := pr.commits.reverse
    merged_hash := pr.mergeCommit }

/-- The follow-up queries derived from the initial response (`github.py`
lines 148-152): one `(node id, commit count)` pair per PR node, in response
order. -/
def detailsQueriesOf (init : InitResp) : List (String × Nat) :=
  init.data.flatMap (fun rd => rd.nodes.map (fun n => (n.id, n.totalCount)))

/-- The `RuntimeError` message prefix raised on GraphQL-level errors. -/
def graphqlFailedS : String := "GraphQL query failed"

/-- Embeds `fetch_pull_requests_from_domain` (`github.py` lines 122-175) over
given wire responses: issue the combined initial query; on GraphQL errors
raise; with no PR nodes stop without a details round trip; otherwise issue
exactly one combined details query and yield a `PullRequest` per node. -/
def fetch_pull_requests_from_domain (repos : List Repository) (init : InitResp)
    (det : DetailsResp) : Except String (List GhRequest × List PullRequest) :=
  let req0 := GhRequest.initial (repos.map (fun r => (r.owner, r.name)))
  if init.errors then .error graphqlFailedS
  else
    let dq := detailsQueriesOf init
    if dq.isEmpty then .ok ([req0], [])
    else if det.errors then .error graphqlFailedS
    else .ok ([req0, GhRequest.details dq], det.data.map toPullRequest)

/-- Embeds the per-domain `fetch` closure of `fetch_pull_requests`
(`github.py` lines 190-197): a domain whose token lookup is falsy contributes
an empty list without any request; otherwise the domain is fetched. -/
def fetch_domain_task (tokens : String → Option String) (domain : String)
    (repos : List Repository) (init : InitResp) (det : DetailsResp) :
    Except String (List GhRequest × List PullRequest) :=
  match tokens domain with
  | none => .ok ([], [])
  | some t =>
      if t == emptyS then .ok ([], [])
      else fetch_pull_requests_from_domain repos init det

/-- The gathered per-domain fetches of `fetch_pull_requests` (`github.py`
lines 199-203): requests are logged per domain and the PR lists are
concatenated in domain order; any domain's exception propagates. -/
def fetch_prs_go (tokens : String → Option String)
    (resps : String → InitResp × DetailsResp) :
    List (String × List Repository) →
    Except String (List (String × List GhRequest) × List PullRequest)
  | [] => .ok ([], [])
  | (domain, repos) :: rest =>
      match fetch_domain_task tokens domain repos (resps domain).1 (resps domain).2 with
      | .error e => .error e
      | .ok (reqs, prs) =>
          match fetch_prs_go tokens resps rest with
          | .error e => .error e
          | .ok (logs, prs') => .ok ((domain, reqs) :: logs, prs ++ prs')

/-- Embeds `fetch_pull_requests` (`github.py` lines 178-203) over given wire
responses: group the remote URLs by domain and gather the per-domain
fetches. -/
def fetch_pull_requests (tokens : String → Option String) (urls : List String)
    (resps : String → InitResp × DetailsResp) :
    Except String (List (String × List GhRequest) × List PullRequest) :=
  fetch_prs_go tokens resps (repos_by_domain urls)

/-! Concrete repository states, pull requests and branch lists used to
evaluate the embedded functions at specific inputs. They mirror the fixtures
of `tests/integration/test_fast_forward_merged_prs.py`. -/

/-- The dummy repository URL of the integration tests. -/
def exUrl : String := "https://github.com/example/example.git"

/-- State with `main` checked out at `c` and a merged PR branch `my_pr` at
`b` tracking `main`; every ancestry query succeeds. -/
def c1_st : RepoState :=
  { branches := [(("main"), ("c")), (("my_pr"), ("b"))]
    upstreams := [(("my_pr"), ("refs/heads/main"))]
    current := some ("refs/heads/main")
    staged := false
    unstaged := false
    mergeBase := fun _ _ => 0
    remoteRefs := [] }

/-- A merged PR for `my_pr` whose merge commit `c` differs from the local
tip `b`, hosted at the push remote's URL. -/
def c1_pr : PullRequest :=
  { branch_name := ("my_pr")
    repo_urls := [exUrl]
    hashes := [("b")]
    merged_hash := some ("c") }

/-- State identical to `c1_st`, for the force-update/deletion analysis:
`my_pr` is not the upstream of any other branch and is not checked out. -/
def c3_st : RepoState :=
  { branches := [(("main"), ("c")), (("my_pr"), ("b"))]
    upstreams := [(("my_pr"), ("refs/heads/main"))]
    current := some ("refs/heads/main")
    staged := false
    unstaged := false
    mergeBase := fun _ _ => 0
    remoteRefs := [] }

/-- State where `more_work` tracks `my_pr`, making `my_pr` an upstream of
another local branch. -/
def c3w_st : RepoState :=
  { branches := [(("main"), ("c")), (("my_pr"), ("b")), (("more_work"), ("d"))]
    upstreams := [(("my_pr"), ("refs/heads/main")), (("more_work"), ("refs/heads/my_pr"))]
    current := some ("refs/heads/main")
    staged := false
    unstaged := false
    mergeBase := fun _ _ => 0
    remoteRefs := [] }

/-- State with `my_pr` checked out and a staged change. -/
def c2w_st : RepoState :=
  { branches := [(("main"), ("c")), (("my_pr"), ("b"))]
    upstreams := [(("my_pr"), ("refs/heads/main"))]
    current := some ("refs/heads/my_pr")
    staged := true
    unstaged := false
    mergeBase := fun _ _ => 0
    remoteRefs := [] }

/-- State with `my_pr` checked out and a clean working tree. -/
def c5w_st : RepoState :=
  { branches := [(("main"), ("c")), (("my_pr"), ("b"))]
    upstreams := [(("my_pr"), ("refs/heads/main"))]
    current := some ("refs/heads/my_pr")
    staged := false
    unstaged := false
    mergeBase := fun _ _ => 0
    remoteRefs := [] }

/-- State whose ancestry oracle fails with exit code 128 — the fatal code of
`git merge-base --is-ancestor` on a commit object that no longer exists
locally, not the exit code 1 that means "not an ancestor" — exactly when
asked about `my_pr`, and succeeds for every other commit. -/
def c4_st : RepoState :=
  { branches := [(("main"), ("c")), (("my_pr"), ("b")), (("other"), ("d"))]
    upstreams := [(("my_pr"), ("refs/heads/main"))]
    current := some ("refs/heads/main")
    staged := false
    unstaged := false
    mergeBase := fun c1 _ => if c1 == ("my_pr") then 128 else 0
    remoteRefs := [] }

/-- A merged PR for `my_pr` whose ancestry check would raise. -/
def c4_pr1 : PullRequest :=
  { branch_name := ("my_pr")
    repo_urls := [exUrl]
    hashes := [("b")]
    merged_hash := some ("c") }

/-- A second merged PR, for `other`, processed after the failing one. -/
def c4_pr2 : PullRequest :=
  { branch_name := ("other")
    repo_urls := [exUrl]
    hashes := [("d")]
    merged_hash := some ("e") }

/-- A single non-current branch with a remote upstream. -/
def c6_branches : List Branch :=
  [⟨("refs/heads/main"), ("refs/remotes/origin/main"), false⟩]

/-- The refspec the batched fetch passes for that branch. -/
def c6_refspec : String := "refs/remotes/origin/main:refs/heads/main"

/-- Two branches with remote upstreams, the second checked out. -/
def c6w_branches : List Branch :=
  [⟨("refs/heads/a"), ("refs/remotes/origin/a"), false⟩,
   ⟨("refs/heads/b"), ("refs/remotes/origin/b"), true⟩]

/-- State for the downstream-push step: the push remote `origin` has a
remote-tracking ref only for `tracked`. -/
def c7w_st : RepoState :=
  { branches := [(("tracked"), ("a")), (("untracked"), ("b"))]
    upstreams := []
    current := none
    staged := false
    unstaged := false
    mergeBase := fun _ _ => 0
    remoteRefs := [("refs/remotes/origin/tracked"), ("refs/remotes/upstream/tracked")] }

/-- Branches whose upstreams live on `upstream`, pushed to `origin`. -/
def c7w_branches : List Branch :=
  [⟨("refs/heads/tracked"), ("refs/remotes/upstream/tracked"), false⟩,
   ⟨("refs/heads/untracked"), ("refs/remotes/upstream/untracked"), false⟩]

/-- One repository on one domain. -/
def c8w_repos : List Repository := [⟨("github.com"), ("owner1"), ("repo1")⟩]

/-- Initial response carrying two PR nodes with commit counts 3 and 1. -/
def c8w_init : InitResp := ⟨false, [⟨[⟨("pr1"), 3⟩, ⟨("pr2"), 1⟩]⟩]⟩

/-- Initial response with a repository that has no pull requests. -/
def c8w_init_empty : InitResp := ⟨false, [⟨[]⟩]⟩

/-- Details response for the two PR nodes. -/
def c8w_det : DetailsResp :=
  ⟨false,
   [⟨("feature-1"), some ("git@github.com:owner1/repo1.git"),
     some ("https://github.com/owner1/repo1"),
     [("commit1"), ("commit2"), ("commit3")], some ("merge1")⟩,
    ⟨("feature-2"), none, none, [("commit4")], none⟩]⟩

/-- A token table with no token for any domain. -/
def c9w_tokens : String → Option String := fun _ => none

/-- Wire responses (never consulted when the token is missing). -/
def c9w_resps : String → InitResp × DetailsResp := fun _ => (⟨false, []⟩, ⟨false, []⟩)

/-- A repository list for the token-less domain. -/
def c9w_repos : List Repository := [⟨("github.com"), ("o"), ("r")⟩]

/-! Helper lemmas. -/

/-- Looking up a key in a list from which all entries with that key were
filtered out yields nothing. -/
theorem lookupS_filter_ne (l : List (String × String)) (b : String) :
    lookupS (l.filter (fun p => !(p.1 == b))) b = none := by
  unfold lookupS
  have h : (l.filter (fun p => !(p.1 == b))).find? (fun p => p.1 == b) = none := by
    rw [List.find?_eq_none]
    intro x hx
    rw [List.mem_filter] at hx
    simpa using hx.2
  rw [h]
  rfl

/-- C1: `update_merged_prs` on a PR that passes the merged/branch/tip/URL
guard raises `AttributeError` instead of performing the ancestry check: the
code reads `pr.branch_hash`, a field `PullRequest` does not define. -/
theorem update_merged_prs_attribute_error :
    prQualifies exUrl c1_st.branches c1_pr = true ∧
    update_merged_prs c1_st exUrl [c1_pr] true = Except.error PyErr.attributeError :=
  ⟨rfl, rfl⟩

/-- C2: reconciling the checked-out branch with staged or unstaged changes
performs no mutation at all — no action is issued, the state is unchanged —
and the reason for skipping is printed. -/
theorem update_merged_pr_branch_dirty_is_noop (st : RepoState) (name mh : String)
    (ad : Bool) (hcur : currentShort st = some name)
    (hdirty : st.staged = true ∨ st.unstaged = true) :
    update_merged_pr_branch st name mh ad =
      ⟨st, [], [if st.staged then stagedMsg name else unstagedMsg name]⟩ := by
  unfold update_merged_pr_branch
  rw [if_pos hcur]
  rcases hdirty with h | h
  · simp [h]
  · cases hs : st.staged with
    | true => simp [hs]
    | false => simp [hs, h]

/-- Witness for C2 at a state with `my_pr` checked out and a staged change. -/
theorem update_merged_pr_branch_dirty_is_noop_witness :
    update_merged_pr_branch c2w_st ("my_pr") ("c") true =
      ⟨c2w_st, [],
       [if c2w_st.staged then stagedMsg ("my_pr") else unstagedMsg ("my_pr")]⟩ :=
  update_merged_pr_branch_dirty_is_noop c2w_st ("my_pr") ("c") true (by decide)
    (Or.inl (by decide))

/-- C3 counterexample: with deletion disabled, a branch that is NOT the
upstream of any other branch is still force-updated, so "force-updated iff
upstream of another branch" fails. -/
theorem update_merged_pr_branch_force_not_iff_upstream :
    ¬ (isForcedB (update_merged_pr_branch c3_st ("my_pr") ("c") false) ("my_pr") = true ↔
       branch_is_an_upstream c3_st ("my_pr") = true) := by decide

/-- C3 amended: a branch that is an upstream of another local branch is never
deleted (regardless of the delete permission) and, unless the branch was
skipped, its ref is moved instead; deletion happens only when deletion is
permitted and the branch is not an upstream of another branch. -/
theorem update_merged_pr_branch_upstream_deletion_rules (st : RepoState)
    (name mh : String) (ad : Bool) :
    (branch_is_an_upstream st name = true →
       isDeletedB (update_merged_pr_branch st name mh ad) name = false) ∧
    (isDeletedB (update_merged_pr_branch st name mh ad) name = true →
       ad = true ∧ branch_is_an_upstream st name = false) ∧
    (branch_is_an_upstream st name = true →
       (update_merged_pr_branch st name mh ad).actions ≠ [] →
       isForcedB (update_merged_pr_branch st name mh ad) name = true) := by
  by_cases hup : branch_is_an_upstream st name = true
  · have hg : (ad && !(branch_is_an_upstream st name)) = false := by simp [hup]
    unfold update_merged_pr_branch
    by_cases hcur : currentShort st = some name
    · rw [if_pos hcur]
      cases hst : st.staged with
      | true => simp [isDeletedB, isForcedB]
      | false =>
        cases hun : st.unstaged with
        | true => simp [isDeletedB, isForcedB]
        | false => simp [hg, isDeletedB, isForcedB]
    · rw [if_neg hcur]
      simp [hg, isDeletedB, isForcedB]
  · have hup' : branch_is_an_upstream st name = false := by
      simpa using hup
    unfold update_merged_pr_branch
    by_cases hcur : currentShort st = some name
    · rw [if_pos hcur]
      cases hst : st.staged with
      | true => simp [isDeletedB, isForcedB, hup]
      | false =>
        cases hun : st.unstaged with
        | true => simp [isDeletedB, isForcedB, hup]
        | false =>
          cases had : ad with
          | true => simp [hup', isDeletedB, isForcedB]
          | false => simp [hup', isDeletedB, isForcedB]
    · rw [if_neg hcur]
      cases had : ad with
      | true => simp [hup', isDeletedB, isForcedB]
      | false => simp [hup', isDeletedB, isForcedB]

/-- Witness for the amended C3 at a state where `more_work` tracks `my_pr`:
the upstream branch is not deleted, and with deletion disabled a non-upstream
branch is not deleted. -/
theorem update_merged_pr_branch_upstream_deletion_rules_witness :
    isDeletedB (update_merged_pr_branch c3w_st ("my_pr") ("c") true) ("my_pr") = false ∧
    isForcedB (update_merged_pr_branch c3w_st ("my_pr") ("c") true) ("my_pr") = true :=
  ⟨(update_merged_pr_branch_upstream_deletion_rules c3w_st ("my_pr") ("c") true).1
     (by decide),
   (update_merged_pr_branch_upstream_deletion_rules c3w_st ("my_pr") ("c") true).2.2
     (by decide) (by decide)⟩

/-- C5: reconciling the clean checked-out branch either checks out the
branch's upstream (or `main` if it has none) and force-deletes the branch —
when deletion is permitted and the branch is not an upstream of another
branch — or hard-resets it to the merge commit. -/
theorem update_merged_pr_branch_current_clean (st : RepoState) (name mh : String)
    (ad : Bool) (hcur : currentShort st = some name) (hs : st.staged = false)
    (hu : st.unstaged = false) :
    (ad = true → branch_is_an_upstream st name = false →
       (update_merged_pr_branch st name mh ad).actions =
         [GitAction.checkout ((get_upstream_branch st name).getD mainS),
          GitAction.deleteBranch name] ∧
       (update_merged_pr_branch st name mh ad).state.current =
         some (refsHeadsS ++ ((get_upstream_branch st name).getD mainS)) ∧
       lookupS (update_merged_pr_branch st name mh ad).state.branches name = none) ∧
    ((ad = false ∨ branch_is_an_upstream st name = true) →
       (update_merged_pr_branch st name mh ad).actions = [GitAction.resetHard mh]) := by
  constructor
  · intro had hup
    unfold update_merged_pr_branch
    rw [if_pos hcur]
    simp only [hs, hu, had, hup, Bool.not_false, Bool.and_self, if_true]
    refine ⟨?_, ?_, ?_⟩
    · simp
    · simp [applyActions, applyAction]
    · simp [applyActions, applyAction, lookupS_filter_ne]
  · intro h
    have hg : (ad && !(branch_is_an_upstream st name)) = false := by
      rcases h with h | h <;> simp [h]
    unfold update_merged_pr_branch
    rw [if_pos hcur]
    simp [hs, hu, hg]

/-- Witness for C5: deleting the checked-out `my_pr` checks out its upstream
`main` and deletes the branch. -/
theorem update_merged_pr_branch_current_clean_witness :
    (update_merged_pr_branch c5w_st ("my_pr") ("c") true).actions =
      [GitAction.checkout ((get_upstream_branch c5w_st ("my_pr")).getD mainS),
       GitAction.deleteBranch ("my_pr")] ∧
    (update_merged_pr_branch c5w_st ("my_pr") ("c") true).state.current =
      some (refsHeadsS ++ ((get_upstream_branch c5w_st ("my_pr")).getD mainS)) ∧
    lookupS (update_merged_pr_branch c5w_st ("my_pr") ("c") true).state.branches
      ("my_pr") = none :=
  (update_merged_pr_branch_current_clean c5w_st ("my_pr") ("c") true (by decide) rfl
    rfl).1 rfl (by decide)

/-- C4 counterexample: at a state realizing exactly the claim's scenario —
the qualifying PR `c4_pr1` for `my_pr`, where `git merge-base --is-ancestor`
would exit with code 128 because the commit object is missing, so
`is_ancestor` would raise the missing-object `GitError` — `update_merged_prs`
does not skip that one PR and continue with `c4_pr2`: it aborts the whole run
with `AttributeError`, raised at `pr.branch_hash` (`git.py` line 218) before
`is_ancestor` is ever invoked, so the second qualifying PR is never processed
and what propagates is not a `GitError`. -/
theorem update_merged_prs_missing_object_not_skipped :
    is_ancestor c4_st (("my_pr") : String) (("b") : String) =
      Except.error (PyErr.gitError 128) ∧
    update_merged_prs c4_st exUrl [c4_pr1, c4_pr2] true =
      Except.error PyErr.attributeError :=
  ⟨rfl, rfl⟩

/-- C4 amended: in `update_merged_prs` as written, no `GitError` from the
per-PR ancestry check is ever raised, isolated or propagated, because the
check is never reached: for every PR that passes the merged/branch/tip/URL
guard — in particular one whose ancestry check would fail for a missing
commit object — the loop raises `AttributeError` at `pr.branch_hash` and
aborts, the remaining PRs unprocessed; a PR that fails the guard is passed
over, processing continuing with the rest. -/
theorem update_merged_prs_guard_behavior (purl : String)
    (bh : List (String × String)) (ad : Bool) :
    (∀ st pr rest, prQualifies purl bh pr = true →
       update_merged_prs_go purl bh ad st (pr :: rest) =
         Except.error PyErr.attributeError) ∧
    (∀ st pr rest, prQualifies purl bh pr = false →
       update_merged_prs_go purl bh ad st (pr :: rest) =
         update_merged_prs_go purl bh ad st rest) := by
  constructor
  · intro st pr rest hq
    conv_lhs => rw [update_merged_prs_go]
    rw [if_pos hq]
  · intro st pr rest hq
    conv_lhs => rw [update_merged_prs_go]
    rw [if_neg (by simp [hq])]

/-- Witness for the amended C4: with the qualifying PR `c4_pr1` first in the
list, the loop aborts with `AttributeError`. -/
theorem update_merged_prs_guard_behavior_witness :
    update_merged_prs_go exUrl c4_st.branches true c4_st [c4_pr1, c4_pr2] =
      Except.error PyErr.attributeError :=
  (update_merged_prs_guard_behavior exUrl c4_st.branches true).1 c4_st c4_pr1
    [c4_pr2] (by decide)

/-- Mapping a function over a list does not change emptiness. -/
theorem isEmpty_map {α β : Type} (f : α → β) (l : List α) :
    (l.map f).isEmpty = l.isEmpty := by
  cases l <;> rfl

/-- A refspec whose source starts with `refs/remotes/` cannot carry the `+`
force marker. -/
theorem refspec_from_remote_not_forced (u v : String)
    (h : strStarts u refsRemotesS = true) : refspecForced (u ++ v) = false := by
  unfold strStarts at h
  rw [List.isPrefixOf_iff_prefix] at h
  obtain ⟨t, ht⟩ := h
  unfold refspecForced strStarts
  rw [String.data_append, ← ht]
  rfl

/-- C6 counterexample: for a single non-current branch the batched fetch is
issued with the refspec `upstream:name`, which carries no `+` force marker,
so the batched fetch is a fast-forward fetch, not a force-fetch. -/
theorem fetch_refspec_not_forced :
    fetch_and_fast_forward_to_upstream c6_branches =
      [FetchCmd.fetchAll, FetchCmd.batchedFetch [c6_refspec] true] ∧
    refspecForced c6_refspec = false := by
  constructor
  · decide
  · decide

/-- C6 amended: a full pull of all remotes happens iff some listed branch is
current (a plain fetch of all remotes otherwise), exactly one batched fetch
is issued when some branch is non-current (none otherwise), the batched
fetch tolerates a nonzero exit, and its refspecs fetch each non-current
branch's upstream into the branch ref without the `+` force marker. -/
theorem fetch_and_fast_forward_shape (bs : List Branch)
    (hup : ∀ b ∈ bs, strStarts b.upstream refsRemotesS = true) :
    (bs.any (fun b => b.is_current) = true →
       FetchCmd.pullAll ∈ fetch_and_fast_forward_to_upstream bs ∧
       FetchCmd.fetchAll ∉ fetch_and_fast_forward_to_upstream bs) ∧
    (bs.any (fun b => b.is_current) = false →
       FetchCmd.fetchAll ∈ fetch_and_fast_forward_to_upstream bs ∧
       FetchCmd.pullAll ∉ fetch_and_fast_forward_to_upstream bs) ∧
    ((fetch_and_fast_forward_to_upstream bs).filter isBatched).length =
      (if (bs.filter (fun b => !b.is_current)).isEmpty then 0 else 1) ∧
    (∀ rs tol, FetchCmd.batchedFetch rs tol ∈ fetch_and_fast_forward_to_upstream bs →
       tol = true ∧
       rs = (bs.filter (fun b => !b.is_current)).map
              (fun b => b.upstream ++ colonS ++ b.name) ∧
       ∀ s ∈ rs, refspecForced s = false) := by
  have hrs : ∀ s ∈ (bs.filter (fun b => !b.is_current)).map
      (fun b => b.upstream ++ colonS ++ b.name), refspecForced s = false := by
    intro s hs
    rw [List.mem_map] at hs
    obtain ⟨b, hb, rfl⟩ := hs
    rw [String.append_assoc]
    exact refspec_from_remote_not_forced b.upstream (colonS ++ b.name)
      (hup b (List.mem_of_mem_filter hb))
  unfold fetch_and_fast_forward_to_upstream
  rw [← isEmpty_map (fun b => b.upstream ++ colonS ++ b.name)
    (bs.filter (fun b => !b.is_current))]
  by_cases hcur : bs.any (fun b => b.is_current) = true
  · rw [if_pos hcur]
    by_cases hemp : ((bs.filter (fun b => !b.is_current)).map
        (fun b => b.upstream ++ colonS ++ b.name)).isEmpty = true
    · rw [if_pos hemp, if_pos hemp]
      refine ⟨fun _ => ⟨by simp, by simp⟩, fun hc => absurd hcur (by simp [hc]), ?_, ?_⟩
      · simp [isBatched]
      · intro rs tol hmem
        simp at hmem
    · rw [if_neg hemp, if_neg hemp]
      refine ⟨fun _ => ⟨by simp, by simp⟩, fun hc => absurd hcur (by simp [hc]), ?_, ?_⟩
      · simp [isBatched]
      · intro rs tol hmem
        simp at hmem
        obtain ⟨hrs', htol⟩ := hmem
        subst hrs' htol
        exact ⟨rfl, rfl, hrs⟩
  · rw [if_neg hcur]
    by_cases hemp : ((bs.filter (fun b => !b.is_current)).map
        (fun b => b.upstream ++ colonS ++ b.name)).isEmpty = true
    · rw [if_pos hemp, if_pos hemp]
      refine ⟨fun hc => absurd hc hcur, fun _ => ⟨by simp, by simp⟩, ?_, ?_⟩
      · simp [isBatched]
      · intro rs tol hmem
        simp at hmem
    · rw [if_neg hemp, if_neg hemp]
      refine ⟨fun hc => absurd hc hcur, fun _ => ⟨by simp, by simp⟩, ?_, ?_⟩
      · simp [isBatched]
      · intro rs tol hmem
        simp at hmem
        obtain ⟨hrs', htol⟩ := hmem
        subst hrs' htol
        exact ⟨rfl, rfl, hrs⟩

/-- Witness for the amended C6: with the second branch checked out, the run
pulls all remotes, never plain-fetches, and its single batched fetch uses the
non-forced refspec of the first branch. -/
theorem fetch_and_fast_forward_shape_witness :
    (FetchCmd.pullAll ∈ fetch_and_fast_forward_to_upstream c6w_branches ∧
     FetchCmd.fetchAll ∉ fetch_and_fast_forward_to_upstream c6w_branches) ∧
    ((fetch_and_fast_forward_to_upstream c6w_branches).filter isBatched).length =
      (if (c6w_branches.filter (fun b => !b.is_current)).isEmpty then 0 else 1) :=
  ⟨(fetch_and_fast_forward_shape c6w_branches (by decide)).1 (by decide),
   (fetch_and_fast_forward_shape c6w_branches (by decide)).2.2.1⟩

/-- C7: with no push remote configured the downstream step issues no push at
all; with push remote `pr`, a push of `name` to `pr` is issued exactly when
some enumerated branch has short name `name`, the remote-tracking ref
`refs/remotes/<pr>/<name>` exists, and that branch's upstream is not that
same ref. In particular a branch with no existing downstream ref is never
pushed. -/
theorem downstream_push_characterization (st : RepoState) (bs : List Branch)
    (pr name : String) :
    downstream_step st none bs = [] ∧
    (PushCmd.mk pr name ∈ downstream_step st (some pr) bs ↔
      ∃ b ∈ bs, strDropL b.name 11 = name ∧
        (get_remote_branches st pr).contains
          (refsRemotesS ++ pr ++ slashS ++ name) = true ∧
        b.upstream ≠ refsRemotesS ++ pr ++ slashS ++ name) := by
  constructor
  · rfl
  · simp only [downstream_step, fast_forward_to_downstream]
    rw [List.mem_filterMap]
    constructor
    · rintro ⟨b, hb, hf⟩
      split at hf
      case isTrue h =>
        rw [Option.some.injEq, PushCmd.mk.injEq] at hf
        obtain ⟨-, hname⟩ := hf
        subst hname
        rw [Bool.and_eq_true] at h
        refine ⟨b, hb, rfl, h.1, ?_⟩
        simpa using h.2
      case isFalse h => exact absurd hf (by simp)
    · rintro ⟨b, hb, hname, hc, hne⟩
      refine ⟨b, hb, ?_⟩
      have hcond : ((get_remote_branches st pr).contains
            (refsRemotesS ++ pr ++ slashS ++ strDropL b.name 11) &&
          !(b.upstream == refsRemotesS ++ pr ++ slashS ++ strDropL b.name 11)) =
          true := by
        rw [hname, Bool.and_eq_true]
        exact ⟨hc, by simpa using hne⟩
      rw [if_pos hcond, hname]

/-- C8: per domain, when the initial query succeeds: if it reports zero PR
nodes across all repositories, no details request is issued and nothing is
yielded; otherwise exactly one combined details request is issued, carrying
one query per PR node that asks for the last N commits with N equal to that
node's total commit count from the initial response. -/
theorem fetch_from_domain_two_phase (repos : List Repository) (init : InitResp)
    (det : DetailsResp) (hinit : init.errors = false) :
    (detailsQueriesOf init = [] →
       fetch_pull_requests_from_domain repos init det =
         .ok ([GhRequest.initial (repos.map (fun r => (r.owner, r.name)))], [])) ∧
    (detailsQueriesOf init ≠ [] → det.errors = false →
       fetch_pull_requests_from_domain repos init det =
         .ok ([GhRequest.initial (repos.map (fun r => (r.owner, r.name))),
               GhRequest.details (detailsQueriesOf init)],
              det.data.map toPullRequest)) ∧
    (∀ q ∈ detailsQueriesOf init, ∃ rd ∈ init.data, ∃ n ∈ rd.nodes,
       q = (n.id, n.totalCount)) ∧
    (detailsQueriesOf init).length =
      (init.data.map (fun rd => rd.nodes.length)).sum := by
  refine ⟨?_, ?_, ?_, ?_⟩
  · intro h
    unfold fetch_pull_requests_from_domain
    rw [hinit]
    simp [h]
  · intro h hdet
    unfold fetch_pull_requests_from_domain
    rw [hinit, hdet]
    simp [List.isEmpty_iff, h]
  · intro q hq
    unfold detailsQueriesOf at hq
    rw [List.mem_flatMap] at hq
    obtain ⟨rd, hrd, hq'⟩ := hq
    rw [List.mem_map] at hq'
    obtain ⟨n, hn, rfl⟩ := hq'
    exact ⟨rd, hrd, n, hn, rfl⟩
  · unfold detailsQueriesOf
    rw [List.length_flatMap]
    have hcomp : (List.length ∘ fun rd : RepoPRData =>
        List.map (fun n => (n.id, n.totalCount)) rd.nodes) =
        fun rd => rd.nodes.length := by
      funext rd
      simp [List.length_map]
    rw [hcomp]

/-- Witness for C8: a repository with no PRs triggers no details request and
yields nothing; two PR nodes with commit counts 3 and 1 trigger exactly one
details request with those counts. -/
theorem fetch_from_domain_two_phase_witness :
    fetch_pull_requests_from_domain c8w_repos c8w_init_empty c8w_det =
      .ok ([GhRequest.initial (c8w_repos.map (fun r => (r.owner, r.name)))], []) ∧
    fetch_pull_requests_from_domain c8w_repos c8w_init c8w_det =
      .ok ([GhRequest.initial (c8w_repos.map (fun r => (r.owner, r.name))),
            GhRequest.details (detailsQueriesOf c8w_init)],
           c8w_det.data.map toPullRequest) :=
  ⟨(fetch_from_domain_two_phase c8w_repos c8w_init_empty c8w_det rfl).1 rfl,
   (fetch_from_domain_two_phase c8w_repos c8w_init c8w_det rfl).2.1 (by decide) rfl⟩

/-- C9: a domain whose token lookup yields nothing contributes an empty PR
list without issuing any request and without raising: its task returns
successfully with no requests logged, and within the gathered per-domain
fetches it contributes an empty request log and no PRs, leaving the other
domains' outcome unchanged. -/
theorem fetch_domain_without_token (tokens : String → Option String)
    (domain : String) (repos : List Repository) (init : InitResp)
    (det : DetailsResp) (resps : String → InitResp × DetailsResp)
    (h : tokens domain = none) :
    fetch_domain_task tokens domain repos init det = .ok ([], []) ∧
    (∀ rest, fetch_prs_go tokens resps ((domain, repos) :: rest) =
       match fetch_prs_go tokens resps rest with
       | .ok (logs, prs) => .ok ((domain, ([] : List GhRequest)) :: logs, prs)
       | .error e => .error e) := by
  have h1 : ∀ (i : InitResp) (d : DetailsResp),
      fetch_domain_task tokens domain repos i d = .ok ([], []) := by
    intro i d
    unfold fetch_domain_task
    rw [h]
  refine ⟨h1 init det, ?_⟩
  intro rest
  conv_lhs => rw [fetch_prs_go]
  rw [h1]
  cases hr : fetch_prs_go tokens resps rest with
  | ok p =>
    obtain ⟨logs, prs⟩ := p
    simp
  | error e => simp

/-- Witness for C9 with a token table that has no entries. -/
theorem fetch_domain_without_token_witness :
    fetch_domain_task c9w_tokens ("github.com") c9w_repos ⟨false, []⟩ ⟨false, []⟩ =
      .ok ([], []) :=
  (fetch_domain_without_token c9w_tokens ("github.com") c9w_repos ⟨false, []⟩
    ⟨false, []⟩ c9w_resps rfl).1

/-! Lemmas about `splitChar`, `joinChar` and `dropTail`. -/

